import Mathlib

/-!
Verification of the Minecraft chaos bridge (`src/main.py`).

The file shallowly embeds the parts of `main.py` that the claims are
about: the circle-point generator (`get_circle_points`), the command
parser (`parse_command`), command expansion (the dispatch in
`handle_websocket`, lines 156-237), the process bridge (`send_command`),
the broadcast hub (`broadcast`), client registration (`set.add` /
`set.remove`, lines 148 and 251), and the output relay
(`read_process_output`).  Machine floats are idealised as real numbers;
Python exceptions become `Except` / `Option` results; Python strings
are Lean `String`s, with the text algorithms spelled out over their
character lists so that every parsing function evaluates by `decide`.
-/

deriving instance DecidableEq for Except

/-- Python `str.strip()` with no arguments: remove leading and trailing
whitespace characters. -/
def pyStrip (l : List Char) : List Char :=
  ((l.dropWhile Char.isWhitespace).reverse.dropWhile Char.isWhitespace).reverse

/-- Worker for `pySplitWS`: accumulate the current field (reversed) and
emit it whenever a whitespace run starts or the input ends. -/
def splitWSAux : List Char → List Char → List (List Char)
  | [], acc => if acc = [] then [] else [acc.reverse]
  | c :: rest, acc =>
    if c.isWhitespace then
      if acc = [] then splitWSAux rest [] else acc.reverse :: splitWSAux rest []
    else splitWSAux rest (c :: acc)

/-- Python `str.split()` with no arguments: split on runs of whitespace,
producing no empty fields. -/
def pySplitWS (l : List Char) : List (List Char) :=
  splitWSAux l []

/-- Python `str.lower()` (the protocol only ever lowercases ASCII
command names). -/
def pyLower (l : List Char) : List Char :=
  l.map Char.toLower

/-- Value of a nonempty all-digit character list, `none` otherwise. -/
def digitsVal (l : List Char) : Option ℕ :=
  if l ≠ [] ∧ l.all Char.isDigit then
    some (l.foldl (fun a c => 10 * a + (c.toNat - '0'.toNat)) 0)
  else none

/-- Python `int(s)` on a token: optional surrounding whitespace, an
optional `+`/`-` sign, then decimal digits; `none` models the
`ValueError` that `int` raises otherwise.  (CPython additionally allows
underscores between digits and non-ASCII digits; no token of this
program's protocol uses those.) -/
def pyInt? (l : List Char) : Option ℤ :=
  match pyStrip l with
  | '-' :: ds => (digitsVal ds).map (fun m => -(m : ℤ))
  | '+' :: ds => (digitsVal ds).map (fun m => (m : ℤ))
  | ds => (digitsVal ds).map (fun m => (m : ℤ))

/-- Error raised (as Python `ValueError` / `IndexError`) inside
`parse_command` before its own `except` clause collapses everything into
`ValueError("Invalid command format")`.  `invalidArgument tok` models
`ValueError(f"Invalid argument: {parts[i]}")` raised at line 140;
`indexError` models the `IndexError` from `parts[0]` on an empty token
list; `invalidFormat` models `ValueError("Invalid command format")`
re-raised at line 145. -/
inductive ParseError where
  | invalidFormat
  | invalidArgument (tok : String)
  | indexError
deriving DecidableEq

/-- The argument-scanning loop of `parse_command` (lines 129-140): a
literal `--name` token followed by at least one more token consumes both
and (re)sets the label; any other token (including a trailing `--name`
with nothing after it) must parse as an integer and (re)sets the count;
otherwise `ValueError(f"Invalid argument: ...")` is raised. -/
def scanArgs : List (List Char) → Option ℤ → Option (List Char) →
    Except ParseError (Option ℤ × Option (List Char))
  | [], count, name => .ok (count, name)
  | [tok], _, name =>
    match pyInt? tok with
    | some k => .ok (some k, name)
    | none => .error (.invalidArgument (String.mk tok))
  | tok :: next :: rest, count, name =>
    if tok = "--name".data then scanArgs rest count (some next)
    else
      match pyInt? tok with
      | some k => scanArgs (next :: rest) (some k) name
      | none => .error (.invalidArgument (String.mk tok))

/-- Tokenisation used by `parse_command` (line 123):
`message[1:].strip().split()`. -/
def tokenize (message : String) : List (List Char) :=
  pySplitWS (pyStrip (message.data.drop 1))

/-- The body of `parse_command`'s `try` block (lines 122-142): tokenize
`message[1:]`, lowercase the first token as the command name (an empty
token list makes `parts[0]` raise `IndexError`), then scan the remaining
tokens for a count and a label. -/
def parse_command_inner (message : String) :
    Except ParseError (String × Option ℤ × Option String) :=
  match tokenize message with
  | [] => .error .indexError
  | first :: rest =>
    (scanArgs rest none none).map
      (fun p => (String.mk (pyLower first), p.1, p.2.map String.mk))

/-- Function `parse_command` (lines 112-145).  Its `except (ValueError, IndexError)`
clause catches every error from the `try` block — including the
`Invalid argument` error raised by the scanning loop — and re-raises
`ValueError("Invalid command format")`, so the caller observes a single
collapsed error kind. -/
def parse_command (message : String) :
    Except ParseError (String × Option ℤ × Option String) :=
  match parse_command_inner message with
  | .ok r => .ok r
  | .error _ => .error .invalidFormat

/-- Constant `MAX_CREEPERS` (line 46): the registered maximum count for the
`creeper` request. -/
def MAX_CREEPERS : ℤ := 100

/-- The loop body of `get_circle_points` (lines 34-38): point `i` of
`n` sits at angle `pi/2 - i*(2*pi/n)` radians and is emitted as the
`(y, 0, x)` integer triple with `x = round(radius*cos(angle))` and
`y = round(radius*sin(angle))`.  The float arithmetic of `math.cos` /
`math.sin` / `round` is idealised over the real numbers. -/
noncomputable def circlePoint (n radius : ℤ) (i : ℕ) : ℤ × ℤ × ℤ :=
  let angle : ℝ := Real.pi / 2 - (i : ℝ) * (2 * Real.pi / (n : ℝ))
  (round ((radius : ℝ) * Real.sin angle), 0, round ((radius : ℝ) * Real.cos angle))

/-- Function `get_circle_points` (lines 16-39): `n` points evenly distributed on
a circle of the given radius, one `circlePoint` per index in
`range(n)`.  `n < 1` or `radius < 1` raises `ValueError` (the `.error`
branches). -/
noncomputable def get_circle_points (n : ℤ) (radius : ℤ) : Except String (List (ℤ × ℤ × ℤ)) :=
  if n < 1 then .error "Number of points must be positive"
  else if radius < 1 then .error "Radius must be positive"
  else .ok ((List.range n.toNat).map (circlePoint n radius))

/-- The `name_tag` f-string used by the `creeper` and `jack` branches
(lines 167 and 173): `,CustomName:'"<name>"'` when a name is present
and truthy, otherwise the empty string. -/
def nameTagOf (name : Option String) : String :=
  match name with
  | some nm => if nm = "" then "" else ",CustomName:\x27\"" ++ nm ++ "\"\x27"
  | none => ""

/-- The `name_tag` f-string used by the `chaos` branch (line 225):
`{CustomName:'"<name>"'}` when a name is present and truthy, otherwise
the empty string. -/
def chaosNameTag (name : Option String) : String :=
  match name with
  | some nm => if nm = "" then "" else "\x7bCustomName:\x27\"" ++ nm ++ "\"\x27\x7d"
  | none => ""

/-- The fixed instruction list of the `godsend` branch (lines 185-221). -/
def godsendCommands : List String :=
  [ "give RhamzThev netherite_helmet\x7bEnchantments:[\x7bid:protection,lvl:4\x7d,\x7bid:respiration,lvl:3\x7d,\x7bid:aqua_affinity,lvl:1\x7d,\x7bid:unbreaking,lvl:3\x7d,\x7bid:mending,lvl:1\x7d,\x7bid:thorns,lvl:3\x7d]\x7d 1",
    "give RhamzThev netherite_chestplate\x7bEnchantments:[\x7bid:protection,lvl:4\x7d,\x7bid:unbreaking,lvl:3\x7d,\x7bid:mending,lvl:1\x7d,\x7bid:thorns,lvl:3\x7d]\x7d 1",
    "give RhamzThev netherite_leggings\x7bEnchantments:[\x7bid:protection,lvl:4\x7d,\x7bid:unbreaking,lvl:3\x7d,\x7bid:mending,lvl:1\x7d,\x7bid:thorns,lvl:3\x7d]\x7d 1",
    "give RhamzThev netherite_boots\x7bEnchantments:[\x7bid:protection,lvl:4\x7d,\x7bid:feather_falling,lvl:4\x7d,\x7bid:depth_strider,lvl:3\x7d,\x7bid:soul_speed,lvl:3\x7d,\x7bid:unbreaking,lvl:3\x7d,\x7bid:mending,lvl:1\x7d,\x7bid:thorns,lvl:3\x7d]\x7d 1",
    "give RhamzThev netherite_sword\x7bEnchantments:[\x7bid:sharpness,lvl:5\x7d,\x7bid:looting,lvl:3\x7d,\x7bid:sweeping,lvl:3\x7d,\x7bid:unbreaking,lvl:3\x7d,\x7bid:mending,lvl:1\x7d,\x7bid:fire_aspect,lvl:2\x7d,\x7bid:knockback,lvl:2\x7d]\x7d 1",
    "give RhamzThev netherite_axe\x7bEnchantments:[\x7bid:sharpness,lvl:5\x7d,\x7bid:efficiency,lvl:5\x7d,\x7bid:unbreaking,lvl:3\x7d,\x7bid:mending,lvl:1\x7d]\x7d 1",
    "give RhamzThev netherite_pickaxe\x7bEnchantments:[\x7bid:efficiency,lvl:5\x7d,\x7bid:unbreaking,lvl:3\x7d,\x7bid:mending,lvl:1\x7d,\x7bid:fortune,lvl:3\x7d]\x7d 1",
    "give RhamzThev netherite_shovel\x7bEnchantments:[\x7bid:efficiency,lvl:5\x7d,\x7bid:unbreaking,lvl:3\x7d,\x7bid:mending,lvl:1\x7d,\x7bid:silk_touch,lvl:1\x7d]\x7d 1",
    "give RhamzThev netherite_hoe\x7bEnchantments:[\x7bid:efficiency,lvl:5\x7d,\x7bid:unbreaking,lvl:3\x7d,\x7bid:mending,lvl:1\x7d,\x7bid:fortune,lvl:3\x7d]\x7d 1",
    "give RhamzThev bow\x7bEnchantments:[\x7bid:power,lvl:5\x7d,\x7bid:unbreaking,lvl:3\x7d,\x7bid:infinity,lvl:1\x7d,\x7bid:flame,lvl:1\x7d]\x7d 1",
    "give RhamzThev bow\x7bEnchantments:[\x7bid:power,lvl:5\x7d,\x7bid:unbreaking,lvl:3\x7d,\x7bid:mending,lvl:1\x7d,\x7bid:flame,lvl:1\x7d]\x7d 1",
    "give RhamzThev arrow 64" ]

/-- Result of dispatching one parsed command in `handle_websocket`
(lines 156-237): either an instruction batch handed to `send_command`,
or an error text sent only to the requesting client (after which the
loop `continue`s without touching the process). -/
inductive ExpandResult where
  | batch (cmds : List String)
  | errorMsg (msg : String)

/-- The command dispatch of `handle_websocket` (lines 156-237).  The
`creeper` branch defaults an absent count to 4, rejects counts above
`MAX_CREEPERS`, and otherwise emits one summon instruction per circle
point; a `ValueError` escaping `get_circle_points` is caught by the
`except ValueError` clause at line 239, which replies
`f"Error: {str(e)}"`.  Unknown names reply
`f"Error: Unknown command '{command}'"` (lines 236-237). -/
noncomputable def expand (command : String) (count0 : Option ℤ) (name : Option String) :
    ExpandResult :=
  if command = "creeper" then
    let count := count0.getD 4
    if count > MAX_CREEPERS then
      .errorMsg ("Error: Maximum " ++ toString MAX_CREEPERS ++ " creepers allowed")
    else
      match get_circle_points count 5 with
      | .error e => .errorMsg ("Error: " ++ e)
      | .ok points =>
        .batch (points.map (fun point =>
          "execute at RhamzThev run summon creeper ~" ++ toString point.1 ++ " ~" ++
            toString point.2.1 ++ " ~" ++ toString point.2.2 ++ " \x7bpowered:1" ++
            nameTagOf name ++ "\x7d"))
  else if command = "jack" then
    .batch
      [ "execute at RhamzThev run summon chicken ~3 ~ ~ \x7bPassengers:[\x7bid:\"zombie\",IsBaby:1" ++
          nameTagOf name ++ "\x7d]\x7d",
        "give RhamzThev water_bucket 1",
        "give RhamzThev flint_and_steel 1",
        "give RhamzThev crafting_table 1" ]
  else if command = "godsend" then
    .batch godsendCommands
  else if command = "chaos" then
    .batch
      [ "execute at RhamzThev run summon wither ~10 ~ ~ " ++ chaosNameTag name,
        "execute at RhamzThev run summon ender_dragon ~10 ~ ~ " ++ chaosNameTag name ]
  else if command = "kill" then
    .batch ["kill @e[type=!player]"]
  else
    .errorMsg ("Error: Unknown command \x27" ++ command ++ "\x27")

/-- What the receive loop of `handle_websocket` does with one inbound
line (lines 150-245): a line whose first character is not the `#`
sentinel is answered with `"Error: Commands must start with #"` without
ever reaching `parse_command`; a sentinel line is parsed, a parse
error is answered with `f"Error: {str(e)}"` (always
`"Error: Invalid command format"`, see `parse_command`), and a parsed
command is dispatched. -/
inductive Reply where
  | text (msg : String)
  | dispatch (r : ExpandResult)

/-- One iteration of the `async for message in websocket` loop in
`handle_websocket`. -/
noncomputable def handle_line (message : String) : Reply :=
  if message.data.head? = some '#' then
    match parse_command message with
    | .error _ => .text "Error: Invalid command format"
    | .ok (command, count, name) => .dispatch (expand command count name)
  else .text "Error: Commands must start with #"

/-- The argument of `send_command` (line 94): either a single command
string or a list of commands; line 96 normalises it to a list. -/
inductive CommandArg where
  | single (cmd : String)
  | listed (cmds : List String)

/-- Line 96: `commands = command if isinstance(command, list) else [command]`. -/
def listOfArg : CommandArg → List String
  | .single c => [c]
  | .listed cs => cs

/-- Observable effect of one `send_command` call: the lines written to
the child process's stdin (in order) and the acknowledgment / error
texts sent to the requesting websocket (in order). -/
structure SendResult where
  written : List String
  replies : List String
deriving DecidableEq

/-- The write loop of `send_command` (lines 101-105): every truthy
(non-empty) command is written to stdin as `f"{cmd}\n"`, flushed, and
acknowledged to the requesting client as `f"Command sent: {cmd}"`. -/
def writeLoop : List String → SendResult
  | [] => { written := [], replies := [] }
  | c :: cs =>
    if c = "" then writeLoop cs
    else
      let r := writeLoop cs
      { written := (c ++ "\n") :: r.written,
        replies := ("Command sent: " ++ c) :: r.replies }

/-- Function `send_command` (lines 94-110).  `stdinAvailable` models the guard
`if self.process and self.process.stdin`; when it is false nothing at
all is written and the client is told
`"Error: Minecraft server not running"`. -/
def send_command (stdinAvailable : Bool) (command : CommandArg) : SendResult :=
  let commands := listOfArg command
  if stdinAvailable then writeLoop commands
  else { written := [], replies := ["Error: Minecraft server not running"] }

/-- A connected websocket client for the broadcast model: an identity
plus whether its `send` succeeds. -/
structure Client where
  id : ℕ
  sendOk : Bool
deriving DecidableEq

/-- Outcome of one `client.send(message)` task as collected by
`asyncio.gather(..., return_exceptions=True)`: either the delivered
message or the captured exception. -/
inductive SendOutcome where
  | delivered (msg : String)
  | failed (error : String)
deriving DecidableEq

/-- One `client.send(message)` attempt. -/
def clientSend (c : Client) (msg : String) : SendOutcome :=
  if c.sendOk then .delivered msg else .failed "ClientSendFailure"

/-- Observable effect of one `broadcast` call: the multiset of per-client
send outcomes, the client set afterwards, and whether an exception
escaped to the caller. -/
structure BroadcastResult where
  results : Multiset (Client × SendOutcome)
  clientsAfter : Finset Client
  raised : Bool

/-- Function `broadcast` (lines 84-92): if `self.connected_clients` is truthy
(non-empty), one send task is gathered per registered client with
`return_exceptions=True`, so an individual failure is captured in the
result list instead of raised; the client set is not modified and
nothing propagates to the caller (the enclosing `except` only logs).
An empty client set broadcasts nothing. -/
def broadcast (clients : Finset Client) (msg : String) : BroadcastResult :=
  if clients = ∅ then
    { results := 0, clientsAfter := clients, raised := false }
  else
    { results := clients.val.map (fun c => (c, clientSend c msg)),
      clientsAfter := clients, raised := false }

/-- Line 148, `self.connected_clients.add(websocket)`: Python
`set.add`. -/
def register (clients : Finset ℕ) (handle : ℕ) : Finset ℕ :=
  insert handle clients

/-- Line 251, `self.connected_clients.remove(websocket)`: Python
`set.remove`, which raises `KeyError` (the `none` branch) when the
element is absent. -/
def deregister (clients : Finset ℕ) (handle : ℕ) : Option (Finset ℕ) :=
  if handle ∈ clients then some (clients.erase handle) else none

/-- Function `read_process_output` (lines 70-82) applied to one stream.  The
input list holds the successive `stream.readline()` results; a
zero-length read (`""`, Python-falsy) means end of stream and breaks
the loop.  Every other line is stripped; a line that strips to nothing
is skipped, and the rest are broadcast as `f"[{prefix}] {line}"` in
stream order.  The returned list is the sequence of broadcast
messages. -/
def read_process_output (streamName : String) : List String → List String
  | [] => []
  | line :: rest =>
    if line = "" then []
    else
      let stripped := pyStrip line.data
      if stripped = [] then read_process_output streamName rest
      else ("[" ++ streamName ++ "] " ++ String.mk stripped) ::
        read_process_output streamName rest

/-- Cooperative-scheduling model for two concurrent `send_command`
calls.  Each call's loop body writes one line to the process stdin and
flushes with no intervening suspension point, then suspends at
`await websocket.send(...)` (line 105); at every suspension the event
loop may resume either coroutine.  `oracle` lists the scheduler's
choices (`true` = first coroutine) while both coroutines still have
lines; the result is the sequence of lines the process stdin
receives. -/
def interleave : List Bool → List String → List String → List String
  | [], a, b => a ++ b
  | true :: s, a, b =>
    match a with
    | [] => b
    | x :: a2 => x :: interleave s a2 b
  | false :: s, a, b =>
    match b with
    | [] => a
    | y :: b2 => y :: interleave s a b2

example : parse_command "#creeper 10" = .ok ("creeper", some 10, none) := by decide
example : parse_command "#creeper --name Bob 5" = .ok ("creeper", some 5, some "Bob") := by decide
example : parse_command "#creeper abc" = .error .invalidFormat := by decide
example : parse_command "#creeper -5" = .ok ("creeper", some (-5), none) := by decide
example : parse_command "#creeper 3 7 --name A --name B" = .ok ("creeper", some 7, some "B") := by decide
example : parse_command "#" = .error .invalidFormat := by decide
example : parse_command "#CrEePeR 2" = .ok ("creeper", some 2, none) := by decide
example : pyInt? "-5".data = some (-5) := by decide
example : scanArgs ["2".data] none none = .ok (some 2, none) := by decide
example : parse_command_inner "#creeper abc" = .error (.invalidArgument "abc") := by decide

/-! ## Helper lemmas -/

theorem get_circle_points_eq (n r : ℤ) (hn : 1 ≤ n) (hr : 1 ≤ r) :
    get_circle_points n r = .ok ((List.range n.toNat).map (circlePoint n r)) := by
  unfold get_circle_points
  rw [if_neg (by omega), if_neg (by omega)]

theorem interleave_sublist_left (oracle : List Bool) (a b : List String) :
    a.Sublist (interleave oracle a b) := by
  induction oracle generalizing a b with
  | nil => exact List.sublist_append_left a b
  | cons choice s ih =>
    cases choice with
    | true =>
      cases a with
      | nil => exact List.nil_sublist _
      | cons x a2 => exact (ih a2 b).cons₂ x
    | false =>
      cases b with
      | nil => exact List.Sublist.refl a
      | cons y b2 => exact (ih a b2).cons y

theorem interleave_sublist_right (oracle : List Bool) (a b : List String) :
    b.Sublist (interleave oracle a b) := by
  induction oracle generalizing a b with
  | nil => exact List.sublist_append_right a b
  | cons choice s ih =>
    cases choice with
    | true =>
      cases a with
      | nil => exact List.Sublist.refl b
      | cons x a2 => exact (ih a2 b).cons x
    | false =>
      cases b with
      | nil => exact List.nil_sublist _
      | cons y b2 => exact (ih a b2).cons₂ y

theorem interleave_perm (oracle : List Bool) (a b : List String) :
    (interleave oracle a b).Perm (a ++ b) := by
  induction oracle generalizing a b with
  | nil => exact List.Perm.refl _
  | cons choice s ih =>
    cases choice with
    | true =>
      cases a with
      | nil => simp [interleave]
      | cons x a2 => exact ((ih a2 b).cons x)
    | false =>
      cases b with
      | nil => simp [interleave]
      | cons y b2 =>
        exact ((ih a b2).cons y).trans List.perm_middle.symm

/-! ## Claims -/

/-- C1: for `1 ≤ n ≤ 100` and radius `r ≥ 1`, `get_circle_points`
returns (rather than raises) a list of exactly `n` points whose `i`-th
entry carries horizontal coordinate `round(r*cos(pi/2 - i*(2*pi/n)))`
and vertical coordinate `round(r*sin(pi/2 - i*(2*pi/n)))` (the
`(y, 0, x)` triple `circlePoint n r i`), and the returned list is
uniquely determined by `(n, r)`, so repeated calls agree. -/
theorem c1_get_circle_points_spec (n r : ℤ) (hn1 : 1 ≤ n) (hn2 : n ≤ 100) (hr : 1 ≤ r) :
    ∃ pts : List (ℤ × ℤ × ℤ),
      get_circle_points n r = .ok pts ∧
      pts.length = n.toNat ∧
      (∀ (i : ℕ) (hi : i < pts.length), pts[i] = circlePoint n r i) ∧
      (∀ pts' : List (ℤ × ℤ × ℤ), get_circle_points n r = .ok pts' → pts' = pts) := by
  refine ⟨(List.range n.toNat).map (circlePoint n r), get_circle_points_eq n r hn1 hr, by simp, ?_, ?_⟩
  · intro i hi
    simp only [List.length_map, List.length_range] at hi
    simp [List.getElem_map, List.getElem_range]
  · intro pts' h
    rw [get_circle_points_eq n r hn1 hr] at h
    exact (Except.ok.injEq _ _ ▸ h.symm)

theorem c1_witness :
    (1 : ℤ) ≤ 4 ∧ (4 : ℤ) ≤ 100 ∧ (1 : ℤ) ≤ 5 ∧
    (∃ pts : List (ℤ × ℤ × ℤ),
      get_circle_points 4 5 = .ok pts ∧
      pts.length = (4 : ℤ).toNat ∧
      (∀ (i : ℕ) (hi : i < pts.length), pts[i] = circlePoint 4 5 i) ∧
      (∀ pts' : List (ℤ × ℤ × ℤ), get_circle_points 4 5 = .ok pts' → pts' = pts)) :=
  ⟨by norm_num, by norm_num, by norm_num,
    c1_get_circle_points_spec 4 5 (by norm_num) (by norm_num) (by norm_num)⟩

/-- C5 counterexample: the schedule that alternates the two
`send_command` coroutines at their `await websocket.send` suspension
points makes the process stdin receive `A1, B1, A2, B2`, which is
neither `A1, A2, B1, B2` nor `B1, B2, A1, A2` — the claimed batch
atomicity does not hold, as `send_command` takes no lock and suspends
between line writes. -/
theorem c5_counterexample :
    interleave [true, false, true, false] ["A1", "A2"] ["B1", "B2"] = ["A1", "B1", "A2", "B2"] ∧
    (["A1", "B1", "A2", "B2"] : List String) ≠ ["A1", "A2"] ++ ["B1", "B2"] ∧
    (["A1", "B1", "A2", "B2"] : List String) ≠ ["B1", "B2"] ++ ["A1", "A2"] := by
  refine ⟨rfl, by decide, by decide⟩

/-- C5 (amended): under every schedule of two concurrent `send_command`
calls, each batch's lines reach the process stdin in submission order
(each batch is a sublist of the received stream) and the stream is some
interleaving of exactly the two batches — but the batches may
interleave line-by-line, since each loop iteration suspends at
`await websocket.send` with no mutual exclusion. -/
theorem c5_interleaving_amended (oracle : List Bool) (a b : List String) :
    a.Sublist (interleave oracle a b) ∧
    b.Sublist (interleave oracle a b) ∧
    (interleave oracle a b).Perm (a ++ b) :=
  ⟨interleave_sublist_left oracle a b, interleave_sublist_right oracle a b,
    interleave_perm oracle a b⟩

/-- C7 counterexample: `deregister` (Python `set.remove`, line 251) on
a handle absent from the client set raises `KeyError` (`none`) instead
of being an idempotent no-op. -/
theorem c7_counterexample :
    deregister (∅ : Finset ℕ) 0 = none ∧
    deregister (∅ : Finset ℕ) 0 ≠ some (∅ : Finset ℕ) := by decide

/-- C7 (amended): `register` of an already-present handle leaves the
client set unchanged (Python `set.add` is idempotent), and `deregister`
of a present handle removes exactly it; but `deregister` of an absent
handle raises `KeyError` (modelled `none`) rather than being a no-op,
because the code uses `set.remove`, not `set.discard`. -/
theorem c7_register_deregister_amended (s1 : Finset ℕ) (h1 : ℕ) (hmem : h1 ∈ s1)
    (s2 : Finset ℕ) (h2 : ℕ) (habs : h2 ∉ s2) :
    register s1 h1 = s1 ∧
    deregister s1 h1 = some (s1.erase h1) ∧
    deregister s2 h2 = none := by
  refine ⟨Finset.insert_eq_self.mpr hmem, ?_, ?_⟩
  · unfold deregister
    rw [if_pos hmem]
  · unfold deregister
    rw [if_neg habs]

theorem c7_witness :
    5 ∈ ({5} : Finset ℕ) ∧ 0 ∉ (∅ : Finset ℕ) ∧
    (register {5} 5 = {5} ∧
      deregister {5} 5 = some (({5} : Finset ℕ).erase 5) ∧
      deregister (∅ : Finset ℕ) 0 = none) :=
  ⟨by decide, by decide, c7_register_deregister_amended {5} 5 (by decide) ∅ 0 (by decide)⟩

/-- C8: when the child process or its stdin is unavailable (the guard
`if self.process and self.process.stdin` fails), `send_command` writes
nothing at all to the process — no partial writes — and immediately
reports the typed error text `"Error: Minecraft server not running"` to
the requesting client, for every instruction batch. -/
theorem c8_send_command_unavailable (command : CommandArg) :
    send_command false command =
      { written := [], replies := ["Error: Minecraft server not running"] } := rfl

/-- C2 counterexample: `parse("#creeper abc")` does not surface a
distinct `InvalidArgument` error kind.  The scanning loop raises
`ValueError("Invalid argument: abc")` internally
(`parse_command_inner`), but `parse_command`'s own `except` clause
catches it and re-raises `ValueError("Invalid command format")` — the
very same error a format-invalid line such as `"#"` produces. -/
theorem c2_counterexample :
    parse_command_inner "#creeper abc" = .error (.invalidArgument "abc") ∧
    parse_command "#creeper abc" = .error .invalidFormat ∧
    parse_command "#" = .error .invalidFormat ∧
    parse_command "#creeper abc" ≠ .error (.invalidArgument "abc") := by
  refine ⟨by decide, by decide, by decide, by decide⟩

/-- C2 (amended): `parse("#creeper 10")` yields name `creeper`, count
10, no label; `parse("#creeper --name Bob 5")` yields name `creeper`,
count 5, label `Bob`; `parse("#creeper abc")` fails, but with the same
collapsed `Invalid command format` error that format errors produce
(not a distinct `InvalidArgument` kind); and a line whose first
character is not the `#` sentinel is answered with
`"Error: Commands must start with #"` without the parser running. -/
theorem c2_parse_examples_amended (msg : String) (hmsg : msg.data.head? ≠ some '#') :
    parse_command "#creeper 10" = .ok ("creeper", some 10, none) ∧
    parse_command "#creeper --name Bob 5" = .ok ("creeper", some 5, some "Bob") ∧
    parse_command "#creeper abc" = .error .invalidFormat ∧
    handle_line msg = .text "Error: Commands must start with #" := by
  refine ⟨by decide, by decide, by decide, ?_⟩
  unfold handle_line
  rw [if_neg hmsg]

theorem c2_witness :
    ("hello".data.head? ≠ some '#') ∧
    (parse_command "#creeper 10" = .ok ("creeper", some 10, none) ∧
      parse_command "#creeper --name Bob 5" = .ok ("creeper", some 5, some "Bob") ∧
      parse_command "#creeper abc" = .error .invalidFormat ∧
      handle_line "hello" = .text "Error: Commands must start with #") :=
  ⟨by decide, c2_parse_examples_amended "hello" (by decide)⟩

/-- C4 counterexample: Python `int("-5")` parses the sign, so
`parse("#creeper -5")` returns a ParsedCommand whose count is the
negative integer -5 instead of the claimed
`ParseError(InvalidArgument)`. -/
theorem c4_counterexample :
    parse_command "#creeper -5" = .ok ("creeper", some (-5), none) ∧
    parse_command "#creeper -5" ≠ .error (.invalidArgument "-5") ∧
    parse_command "#creeper -5" ≠ .error .invalidFormat ∧
    (-5 : ℤ) < 0 := by
  refine ⟨by decide, by decide, by decide, by decide⟩

/-- C4 (amended): a present count is an integer parsed by `int()` from
a single token — possibly negative, since `int()` accepts a leading
sign.  A lone token that `int()` accepts always becomes the count
(`"#creeper -5"` parses to count -5 rather than erroring); the
non-negativity invariant claimed by the spec does not hold. -/
theorem c4_count_amended (t : List Char) (k : ℤ) (ht : pyInt? t = some k) :
    parse_command "#creeper -5" = .ok ("creeper", some (-5), none) ∧
    scanArgs [t] none none = .ok (some k, none) := by
  refine ⟨by decide, ?_⟩
  simp [scanArgs, ht]

theorem c4_witness :
    pyInt? "-5".data = some (-5) ∧
    (parse_command "#creeper -5" = .ok ("creeper", some (-5), none) ∧
      scanArgs ["-5".data] none none = .ok (some (-5), none)) :=
  ⟨by decide, c4_count_amended "-5".data (-5) (by decide)⟩

/-- C9: for a stream whose reads are `xs` followed by a zero-length
read (and anything after it, never reached), the relay broadcasts
exactly the non-empty stripped lines of `xs`, each prefixed with
`"[<stream>] "`, in stream order; blank lines are skipped and the
zero-length read terminates the loop (nothing after it is read). -/
theorem c9_read_process_output (streamName : String) (xs ys : List String)
    (hxs : "" ∉ xs) :
    read_process_output streamName (xs ++ "" :: ys) =
      ((xs.map (fun l => pyStrip l.data)).filter (fun l => l ≠ [])).map
        (fun l => "[" ++ streamName ++ "] " ++ String.mk l) := by
  induction xs with
  | nil => simp [read_process_output]
  | cons l rest ih =>
    have hl : l ≠ "" := fun h => hxs (by simp [h])
    have ih2 := ih (fun h => hxs (List.mem_cons_of_mem _ h))
    by_cases hs : pyStrip l.data = []
    · simp [read_process_output, hl, hs, ih2]
    · simp [read_process_output, hl, hs, ih2]

theorem c9_witness :
    ("" ∉ ["hello\n", "  \n", "world\n"]) ∧
    read_process_output "OUT" (["hello\n", "  \n", "world\n"] ++ "" :: ["late"]) =
      (((["hello\n", "  \n", "world\n"] : List String).map (fun l => pyStrip l.data)).filter
        (fun l => l ≠ [])).map (fun l => "[" ++ "OUT" ++ "] " ++ String.mk l) :=
  ⟨by decide, c9_read_process_output "OUT" ["hello\n", "  \n", "world\n"] ["late"] (by decide)⟩

example :
    read_process_output "OUT" ["hello\n", "  \n", "world\n", "", "late"] =
      ["[OUT] hello", "[OUT] world"] := by decide

/-- C6: for every client set and message, `broadcast` attempts exactly
one `send` per registered client with the failures captured by
`return_exceptions=True`: a client whose send succeeds receives exactly
one copy, a failing client receives none but stays registered, nothing
is raised to the caller, the client set is not modified, and an empty
client set broadcasts nothing at all. -/
theorem c6_broadcast_isolation (clients : Finset Client) (msg : String) (c : Client)
    (hc : c ∈ clients) :
    (c.sendOk = true →
      (broadcast clients msg).results.count (c, SendOutcome.delivered msg) = 1) ∧
    (c.sendOk = false →
      (c, SendOutcome.delivered msg) ∉ (broadcast clients msg).results ∧
      c ∈ (broadcast clients msg).clientsAfter) ∧
    (broadcast clients msg).raised = false ∧
    (broadcast clients msg).clientsAfter = clients ∧
    (broadcast ∅ msg).results = 0 := by
  have hne : clients ≠ ∅ := by
    intro h
    rw [h] at hc
    exact absurd hc (Finset.not_mem_empty c)
  have hinj : Function.Injective (fun c' : Client => (c', clientSend c' msg)) := by
    intro a b hab
    exact congrArg Prod.fst hab
  have hafter : (broadcast clients msg).clientsAfter = clients := by
    unfold broadcast
    split <;> rfl
  refine ⟨?_, ?_, ?_, hafter, by simp [broadcast]⟩
  · intro hok
    have hcs : (c, SendOutcome.delivered msg) =
        (fun c' : Client => (c', clientSend c' msg)) c := by
      simp [clientSend, hok]
    unfold broadcast
    rw [if_neg hne]
    simp only []
    rw [hcs, Multiset.count_map_eq_count' _ _ hinj]
    exact Multiset.count_eq_one_of_mem clients.nodup hc
  · intro hfail
    refine ⟨?_, by rw [hafter]; exact hc⟩
    intro hbad
    unfold broadcast at hbad
    rw [if_neg hne] at hbad
    simp only [Multiset.mem_map] at hbad
    obtain ⟨c', _, heq⟩ := hbad
    obtain ⟨hfst, hsnd⟩ := Prod.mk.injEq .. ▸ heq
    subst hfst
    simp [clientSend, hfail] at hsnd
  · unfold broadcast
    split <;> rfl

theorem c6_witness :
    (⟨3, false⟩ : Client) ∈ ({⟨1, true⟩, ⟨2, true⟩, ⟨3, false⟩} : Finset Client) ∧
    ((Client.sendOk ⟨3, false⟩ = true →
      (broadcast {⟨1, true⟩, ⟨2, true⟩, ⟨3, false⟩} "ping").results.count
        (⟨3, false⟩, SendOutcome.delivered "ping") = 1) ∧
    (Client.sendOk ⟨3, false⟩ = false →
      ((⟨3, false⟩ : Client), SendOutcome.delivered "ping") ∉
        (broadcast {⟨1, true⟩, ⟨2, true⟩, ⟨3, false⟩} "ping").results ∧
      (⟨3, false⟩ : Client) ∈
        (broadcast {⟨1, true⟩, ⟨2, true⟩, ⟨3, false⟩} "ping").clientsAfter) ∧
    (broadcast {⟨1, true⟩, ⟨2, true⟩, ⟨3, false⟩} "ping").raised = false ∧
    (broadcast {⟨1, true⟩, ⟨2, true⟩, ⟨3, false⟩} "ping").clientsAfter =
      {⟨1, true⟩, ⟨2, true⟩, ⟨3, false⟩} ∧
    (broadcast ∅ "ping").results = 0) :=
  ⟨by decide, c6_broadcast_isolation {⟨1, true⟩, ⟨2, true⟩, ⟨3, false⟩} "ping" ⟨3, false⟩ (by decide)⟩

theorem scanArgs_append_ok (xs ys : List (List Char)) (c : Option ℤ) (n : Option (List Char))
    (p : Option ℤ × Option (List Char)) (h : scanArgs xs c n = .ok p) :
    scanArgs (xs ++ ys) c n = scanArgs ys p.1 p.2 := by
  have hname : pyInt? "--name".data = none := by decide
  induction xs, c, n using scanArgs.induct with
  | case1 c0 name =>
    simp only [scanArgs] at h
    cases h
    rfl
  | case2 tok c0 name k hk =>
    simp only [scanArgs, hk] at h
    cases h
    have hneq : tok ≠ "--name".data := by
      intro he
      rw [he, hname] at hk
      exact Option.noConfusion hk
    cases ys with
    | nil => simp [scanArgs, hk]
    | cons y ys2 =>
      simp only [List.singleton_append]
      simp [scanArgs, hneq, hk]
  | case3 tok c0 name hk =>
    simp only [scanArgs, hk] at h
    exact Except.noConfusion h
  | case4 next rest c0 name ih =>
    simp only [scanArgs, if_pos rfl] at h
    simp only [List.cons_append, scanArgs, if_pos rfl]
    exact ih h
  | case5 tok next rest c0 name hneq k hk ih =>
    simp only [scanArgs, if_neg hneq, hk] at h
    simp only [List.cons_append, scanArgs, if_neg hneq, hk]
    exact ih h
  | case6 tok next rest c0 name hneq hk =>
    simp only [scanArgs, if_neg hneq, hk] at h
    exact Except.noConfusion h

/-- C10: the scanning loop keeps overwriting: on the concrete line
`"#creeper 3 7 --name A --name B"` the parse succeeds with the last
integer token as count and the token after the last `--name` as label;
and in general, appending a trailing integer token to any succeeding
scan overrides the count (keeping the label), while appending a
trailing `--name <tok>` pair overrides the label (keeping the count). -/
theorem c10_last_wins (xs : List (List Char)) (t b : List Char) (k : ℤ)
    (c : Option ℤ) (n : Option (List Char))
    (ht : pyInt? t = some k) (hx : scanArgs xs none none = .ok (c, n)) :
    parse_command "#creeper 3 7 --name A --name B" = .ok ("creeper", some 7, some "B") ∧
    scanArgs (xs ++ [t]) none none = .ok (some k, n) ∧
    scanArgs (xs ++ ["--name".data, b]) none none = .ok (c, some b) := by
  refine ⟨by decide, ?_, ?_⟩
  · rw [scanArgs_append_ok xs [t] none none (c, n) hx]
    simp [scanArgs, ht]
  · rw [scanArgs_append_ok xs ["--name".data, b] none none (c, n) hx]
    simp [scanArgs]

theorem c10_witness :
    pyInt? "-1".data = some (-1) ∧
    scanArgs ["2".data] none none = .ok (some 2, none) ∧
    (parse_command "#creeper 3 7 --name A --name B" = .ok ("creeper", some 7, some "B") ∧
      scanArgs (["2".data] ++ ["-1".data]) none none = .ok (some (-1), none) ∧
      scanArgs (["2".data] ++ ["--name".data, "Z".data]) none none = .ok (some 2, some "Z".data)) :=
  ⟨by decide, by decide,
    c10_last_wins ["2".data] "-1".data "Z".data (-1) (some 2) none (by decide) (by decide)⟩

/-- C3: dispatching a parsed `creeper` request with absent count uses
the registered default 4 and produces exactly 4 instructions; a count
above the registered maximum `MAX_CREEPERS = 100` is rejected with the
limit error text and no instruction batch reaches `send_command`; a
name outside the registry (not creeper/jack/godsend/chaos/kill) is
rejected with the unknown-command error text. -/
theorem c3_expand_rules (name : Option String) (c0 : Option ℤ) (cmd : String)
    (hc1 : cmd ≠ "creeper") (hc2 : cmd ≠ "jack") (hc3 : cmd ≠ "godsend") (hc4 : cmd ≠ "chaos")
    (hc5 : cmd ≠ "kill") :
    (∃ cmds, expand "creeper" none name = .batch cmds ∧ cmds.length = 4) ∧
    expand "creeper" (some 150) name = .errorMsg "Error: Maximum 100 creepers allowed" ∧
    expand cmd c0 name = .errorMsg ("Error: Unknown command \x27" ++ cmd ++ "\x27") := by
  refine ⟨?_, ?_, ?_⟩
  · have hok := get_circle_points_eq 4 5 (by norm_num) (by norm_num)
    have hexp : expand "creeper" none name =
        .batch (((List.range (4 : ℤ).toNat).map (circlePoint 4 5)).map (fun point =>
          "execute at RhamzThev run summon creeper ~" ++ toString point.1 ++ " ~" ++
            toString point.2.1 ++ " ~" ++ toString point.2.2 ++ " \x7bpowered:1" ++
            nameTagOf name ++ "\x7d")) := by
      unfold expand
      rw [if_pos rfl]
      simp only [Option.getD_none]
      rw [if_neg (by norm_num [MAX_CREEPERS]), hok]
    refine ⟨_, hexp, ?_⟩
    simp
  · unfold expand
    rw [if_pos rfl]
    simp only [Option.getD_some]
    rw [if_pos (by norm_num [MAX_CREEPERS])]
    have htext : ("Error: Maximum " ++ toString MAX_CREEPERS ++ " creepers allowed") =
        "Error: Maximum 100 creepers allowed" := by decide
    rw [htext]
  · unfold expand
    rw [if_neg hc1, if_neg hc2, if_neg hc3, if_neg hc4, if_neg hc5]

theorem c3_witness :
    ("frog" ≠ "creeper" ∧ "frog" ≠ "jack" ∧ "frog" ≠ "godsend" ∧ "frog" ≠ "chaos" ∧
      "frog" ≠ "kill") ∧
    ((∃ cmds, expand "creeper" none none = .batch cmds ∧ cmds.length = 4) ∧
      expand "creeper" (some 150) none = .errorMsg "Error: Maximum 100 creepers allowed" ∧
      expand "frog" none none = .errorMsg ("Error: Unknown command \x27" ++ "frog" ++ "\x27")) :=
  ⟨⟨by decide, by decide, by decide, by decide, by decide⟩,
    c3_expand_rules none none "frog" (by decide) (by decide) (by decide) (by decide) (by decide)⟩
